import Mathlib

/-!
Shallow embedding of the authentication/session-token core of the EComBackend
repository, together with proofs of the specified properties.

Embedded source files:
- `src/common/services/token.service.js` (token codec, refresh-token registry,
  access-token blacklist): `generateAccessToken`, `generateRefreshToken`,
  `verifyRefreshToken`, `revokeRefreshToken`, `revokeAllUserRefreshTokens`,
  `isTokenBlacklisted`.
- `src/modules/user/user.middleware.js`: the token-validation phase of
  `userMiddleware` (blacklist check, JWT verification, identity attachment).
- `src/modules/auth/auth.service.js`: `handleRefreshToken`.
- OTP service (`otp-service`): `verifyOTP`, `checkRateLimit`.

Modelling conventions:
- A JWT string is modelled as a `Token` structure: the decodable payload
  (`none` models an undecodable string), the secret it was signed with, and
  its expiry instant.  Raw-string equality of two JWTs is structural equality
  of `Token` (the JWT rendering of distinct (payload, signature, expiry)
  triples is injective).
- `jwt.decode t` is `t.payload`; `jwt.verify t secret now` checks the signing
  secret and then expiry (the `jsonwebtoken` library reports `expired` only
  for tokens whose signature verifies, and is expired iff `now ≥ exp`).
- JavaScript string truthiness (`!x` / `x || y`) is modelled on
  `Option String`: `none` is `undefined`, `some ""` is the falsy empty string.
- Redis is modelled per key namespace: the refresh-token records
  (`auth:refresh:<uid>:<jti>`), the per-user jti index hash
  (`auth:refresh:<uid>:tokens`), the OTP store (`otp:<uid>:<purpose>`) and the
  OTP rate-limit counters (`otp-ratelimit:<contact>`) each become one map of
  the state; keys are namespaced in the source so the maps never alias.
- `Date.now()` and `Math.floor(Math.random() * 1000)` become explicit `Nat`
  parameters; JS decimal rendering of a number inside a template literal is
  `decStr` below, a fuel-structured copy of decimal digit emission.
-/

/-! ## JavaScript string truthiness -/

/-- Truthiness of a JS value that is either `undefined` (`none`) or a string:
falsy iff `undefined` or the empty string. -/
def jsTruthy : Option String → Bool
  | none => false
  | some s => s ≠ ""

/-- JS `a || b` on optional strings. -/
def jsOrS (a b : Option String) : Option String :=
  if jsTruthy a then a else b

/-! ## Token payloads and the JWT codec -/

/-- The user object shape the token service reads: `id`, `_id` (either may be
absent) and `role`. -/
structure UserObj where
  id : Option String
  _id : Option String
  role : String
  deriving DecidableEq, Repr

/-- The `user` argument/field is either a user object or a bare id string
(`typeof user === 'object'` distinguishes the two in the source). -/
inductive JsUser where
  | obj (o : UserObj)
  | str (s : String)
  deriving DecidableEq, Repr

/-- A decoded JWT payload as built by `generateAccessToken` /
`generateRefreshToken`: `user`, `role`, optional `jti`, `iat`, the `isAdmin`
marker (absent models `false`), and an optional top-level `id` (read as a
fallback by `revokeRefreshToken`). -/
structure Payload where
  user : Option JsUser
  role : String
  jti : Option String
  iat : Nat
  isAdmin : Bool
  id : Option String
  deriving DecidableEq, Repr

/-- A JWT string, abstracted: its decodable payload (`none` when
`jwt.decode` returns `null`), the secret it was signed with, and its expiry
instant (seconds). -/
structure Token where
  payload : Option Payload
  sig : String
  exp : Nat
  deriving DecidableEq, Repr

/-- Outcome classes of `jwt.verify`: expired, or any other failure
(bad signature / undecodable). -/
inductive JwtError where
  | expired
  | invalid
  deriving DecidableEq, Repr

/-- `jwt.verify token secret` at time `now`: fails `invalid` when the token
is undecodable or signed under a different secret, fails `expired` when the
signature is good but `now ≥ exp`, and otherwise returns the payload. -/
def jwtVerify (t : Token) (secret : String) (now : Nat) : Except JwtError Payload :=
  match t.payload with
  | none => .error .invalid
  | some p =>
    if t.sig ≠ secret then .error .invalid
    else if t.exp ≤ now then .error .expired
    else .ok p

/-! ## Environment configuration -/

/-- The signing secrets and expiry overrides read from `process.env`.
Optional fields model unset environment variables. -/
structure Env where
  ACCESS_TOKEN_SECRET : String
  REFRESH_TOKEN_SECRET : String
  ADMIN_ACCESS_TOKEN_SECRET : Option String
  ADMIN_REFRESH_TOKEN_SECRET : Option String
  ACCESS_TOKEN_EXPIRY : Option Nat
  ADMIN_TOKEN_EXPIRY : Option Nat
  REFRESH_TOKEN_EXPIRY : Option Nat
  ADMIN_REFRESH_TOKEN_EXPIRY : Option Nat
  deriving DecidableEq, Repr

/-- `DEFAULT_ACCESS_TOKEN_TTL` (1 day, seconds). -/
def DEFAULT_ACCESS_TOKEN_TTL : Nat := 60 * 60 * 24

/-- `DEFAULT_REFRESH_TOKEN_TTL` (7 days, seconds). -/
def DEFAULT_REFRESH_TOKEN_TTL : Nat := 7 * 24 * 60 * 60

/-- `DEFAULT_ADMIN_TOKEN_TTL` (1 hour, seconds). -/
def DEFAULT_ADMIN_TOKEN_TTL : Nat := 60 * 60

/-- `DEFAULT_ADMIN_REFRESH_TOKEN_TTL` (4 hours, seconds). -/
def DEFAULT_ADMIN_REFRESH_TOKEN_TTL : Nat := 4 * 60 * 60

/-! ## JS decimal rendering (for `${Date.now()}` / `${rand}` in the jti) -/

/-- Big-endian decimal digit emission with explicit fuel, mirroring decimal
number-to-string conversion (`fuel = n + 1` always suffices). -/
def decCharsAux : Nat → Nat → List Char → List Char
  | 0, _, acc => acc
  | fuel + 1, n, acc =>
    let c := Char.ofNat (48 + n % 10)
    if n < 10 then c :: acc
    else decCharsAux fuel (n / 10) (c :: acc)

/-- Decimal rendering of a JS number inside a template literal. -/
def decStr (n : Nat) : String :=
  String.mk (decCharsAux (n + 1) n [])

/-- One step of decimal evaluation of a digit string (proof-side inverse of
`decCharsAux`). -/
def decVal (a : Nat) (c : Char) : Nat := 10 * a + (c.toNat - 48)

/-- The jti embedded in a token's decoded payload. -/
def jtiOf (t : Token) : Option String := t.payload.bind Payload.jti

/-! ## Token issuance (`generateAccessToken`, `generateRefreshToken`) -/

/-- `typeof user === 'object' ? user.role : 'customer'`. -/
def roleOf : JsUser → String
  | .obj o => o.role
  | .str _ => "customer"

/-- The access-token signing secret for a domain:
`isAdmin ? (ADMIN_ACCESS_TOKEN_SECRET || ACCESS_TOKEN_SECRET) : ACCESS_TOKEN_SECRET`. -/
def accessSecretFor (env : Env) (isAdmin : Bool) : String :=
  if isAdmin then env.ADMIN_ACCESS_TOKEN_SECRET.getD env.ACCESS_TOKEN_SECRET
  else env.ACCESS_TOKEN_SECRET

/-- The access-token lifetime for a domain (env override or default). -/
def accessTtlFor (env : Env) (isAdmin : Bool) : Nat :=
  if isAdmin then env.ADMIN_TOKEN_EXPIRY.getD DEFAULT_ADMIN_TOKEN_TTL
  else env.ACCESS_TOKEN_EXPIRY.getD DEFAULT_ACCESS_TOKEN_TTL

/-- `generateAccessToken(user, isAdmin)` at time `now` (seconds): signs
`{user, role, iat, isAdmin?}` under the domain secret with the domain TTL. -/
def generateAccessToken (env : Env) (user : JsUser) (isAdmin : Bool) (now : Nat) : Token :=
  { payload := some
      { user := some user
        role := roleOf user
        jti := none
        iat := now
        isAdmin := isAdmin
        id := none }
    sig := accessSecretFor env isAdmin
    exp := now + accessTtlFor env isAdmin }

/-- The user id interpolated into the jti:
`typeof user === 'object' ? (user.id || user._id) : user`, with JS rendering
of `undefined` as the string `"undefined"`. -/
def refreshUserId : JsUser → String
  | .str s => s
  | .obj o =>
    match jsOrS o.id o._id with
    | some s => s
    | none => "undefined"

/-- The jti built by `generateRefreshToken`:
`` `${userId}-${Date.now()}-${Math.floor(Math.random() * 1000)}` ``. -/
def mkJti (userId : String) (nowMs rand : Nat) : String :=
  userId ++ "-" ++ decStr nowMs ++ "-" ++ decStr rand

/-- The refresh-token signing secret for a domain:
`isAdmin ? (ADMIN_REFRESH_TOKEN_SECRET || REFRESH_TOKEN_SECRET) : REFRESH_TOKEN_SECRET`. -/
def refreshSecretFor (env : Env) (isAdmin : Bool) : String :=
  if isAdmin then env.ADMIN_REFRESH_TOKEN_SECRET.getD env.REFRESH_TOKEN_SECRET
  else env.REFRESH_TOKEN_SECRET

/-- The refresh-token lifetime for a domain (env override or default). -/
def refreshTtlFor (env : Env) (isAdmin : Bool) : Nat :=
  if isAdmin then env.ADMIN_REFRESH_TOKEN_EXPIRY.getD DEFAULT_ADMIN_REFRESH_TOKEN_TTL
  else env.REFRESH_TOKEN_EXPIRY.getD DEFAULT_REFRESH_TOKEN_TTL

/-- `generateRefreshToken(user, isAdmin)` with `Date.now() = nowMs` and
random draw `rand`: signs `{user, role, jti, iat, isAdmin?}` under the domain
refresh secret with the domain TTL. -/
def generateRefreshToken (env : Env) (user : JsUser) (isAdmin : Bool) (nowMs rand : Nat) : Token :=
  { payload := some
      { user := some user
        role := roleOf user
        jti := some (mkJti (refreshUserId user) nowMs rand)
        iat := nowMs / 1000
        isAdmin := isAdmin
        id := none }
    sig := refreshSecretFor env isAdmin
    exp := nowMs / 1000 + refreshTtlFor env isAdmin }

/-! ## The refresh-token registry (`auth:refresh:*` keys) -/

/-- A registry record as stored by `saveRefreshToken`:
`{token, userId, isAdmin, createdAt, expiresAt}`. -/
structure TokenData where
  token : Token
  userId : String
  isAdmin : Bool
  createdAt : Nat
  expiresAt : Nat
  deriving DecidableEq, Repr

/-- The registry portion of the Redis state: `records uid jti` models key
`auth:refresh:<uid>:<jti>`, `index uid` models the hash
`auth:refresh:<uid>:tokens` as an association list of jti → created-at. -/
structure RegistryState where
  records : String → String → Option TokenData
  index : String → List (String × Nat)

/-- Point update of the records map. -/
def setRec (r : String → String → Option TokenData) (uid jti : String)
    (v : Option TokenData) : String → String → Option TokenData :=
  fun u j => if u = uid ∧ j = jti then v else r u j

/-- `HGET`-style lookup in a per-user index hash. -/
def hFind : List (String × Nat) → String → Option Nat
  | [], _ => none
  | e :: rest, field => if e.1 = field then some e.2 else hFind rest field

/-- `HDEL field` on a per-user index hash. -/
def hDelList : List (String × Nat) → String → List (String × Nat)
  | [], _ => []
  | e :: rest, field => if e.1 = field then hDelList rest field else e :: hDelList rest field

/-- The subject id `verifyRefreshToken` reads:
`decoded.user.id || decoded.user._id`, required truthy; yields `none` when
`decoded.user` is missing, not an object, or has no truthy id. -/
def subjectId (p : Payload) : Option String :=
  match p.user with
  | some (.obj o) =>
    if jsTruthy o.id then o.id
    else if jsTruthy o._id then o._id
    else none
  | _ => none

/-- The subject id `revokeRefreshToken` reads:
`decoded.user?.id || decoded.user?._id || decoded.id`. -/
def revokeSubject (p : Payload) : Option String :=
  match subjectId p with
  | some u => some u
  | none => if jsTruthy p.id then p.id else none

/-- Failure classes of `verifyRefreshToken`, one per thrown error:
the two malformed-token errors, the registry miss, and — propagated from
`jwt.verify` — bad signature and expiry. -/
inductive VErr where
  | missingJti
  | missingUserId
  | notFoundOrRevoked
  | invalidSig
  | expired
  deriving DecidableEq, Repr

/-- `verifyRefreshToken(refreshToken)` against registry state `s` at time
`now`: decode without signature check; require a truthy `jti` and a truthy
subject id; look up `auth:refresh:<uid>:<jti>` and require the stored raw
token string to equal the presented one; only then `jwt.verify` under the
domain secret selected by `decoded.isAdmin`. -/
def verifyRefreshToken (env : Env) (s : RegistryState) (now : Nat) (t : Token) :
    Except VErr Payload :=
  match t.payload with
  | none => .error .missingJti
  | some p =>
    match p.jti with
    | none => .error .missingJti
    | some j =>
      if j = "" then .error .missingJti
      else
        match subjectId p with
        | none => .error .missingUserId
        | some uid =>
          match s.records uid j with
          | none => .error .notFoundOrRevoked
          | some d =>
            if d.token ≠ t then .error .notFoundOrRevoked
            else if t.sig ≠ refreshSecretFor env p.isAdmin then .error .invalidSig
            else if t.exp ≤ now then .error .expired
            else .ok p

/-- `revokeRefreshToken(refreshToken)`: best-effort decode; on a truthy jti
and subject id, `DEL auth:refresh:<uid>:<jti>` and
`HDEL auth:refresh:<uid>:tokens <jti>`; returns `false` (state unchanged)
when decoding yields no usable key. -/
def revokeRefreshToken (t : Token) (s : RegistryState) : Bool × RegistryState :=
  match t.payload with
  | none => (false, s)
  | some p =>
    match p.jti with
    | none => (false, s)
    | some j =>
      if j = "" then (false, s)
      else
        match revokeSubject p with
        | none => (false, s)
        | some uid =>
          (true,
            { records := setRec s.records uid j none
              index := fun u => if u = uid then hDelList (s.index uid) j else s.index u })

/-- `revokeAllUserRefreshTokens(userId)`: read the jti index hash, delete
every listed record key, then delete the index itself. -/
def revokeAllUserRefreshTokens (uid : String) (s : RegistryState) : Bool × RegistryState :=
  let jtis := (s.index uid).map Prod.fst
  (true,
    { records := jtis.foldl (fun r j => setRec r uid j none) s.records
      index := fun u => if u = uid then [] else s.index u })

/-- `HSET field value` on a per-user index hash: replace the field's value
when present, append it otherwise. -/
def hSetList : List (String × Nat) → String → Nat → List (String × Nat)
  | [], field, v => [(field, v)]
  | e :: rest, field, v =>
    if e.1 = field then (field, v) :: rest else e :: hSetList rest field v

/-- `saveRefreshToken(userId, refreshToken, isAdmin)` at time `now`: decode
(throws on an undecodable token), compute TTL = expiry − now (throws when
≤ 0), write the registry record under `auth:refresh:<userId>:<jti>` (JS
renders an absent jti as the string `"undefined"`), and `HSET` the jti into
the user's index hash. -/
def saveRefreshToken (uid : String) (t : Token) (isAdmin : Bool) (now : Nat)
    (s : RegistryState) : Except String RegistryState :=
  match t.payload with
  | none => .error "Invalid refresh token"
  | some p =>
    if t.exp ≤ now then .error "Token has already expired"
    else
      let j := p.jti.getD "undefined"
      let d : TokenData :=
        { token := t, userId := uid, isAdmin := isAdmin || p.isAdmin
          createdAt := now, expiresAt := t.exp }
      .ok
        { records := setRec s.records uid j (some d)
          index := fun u => if u = uid then hSetList (s.index uid) j now else s.index u }

/-- The registry key a save would write for a token: the decoded jti,
rendered as in the source (`"undefined"` when absent). -/
def saveKeyOf (t : Token) : Option String :=
  t.payload.map (fun p => p.jti.getD "undefined")

/-- Registry-mutating operations that may follow a revocation: further
revocations and further saves (e.g. the subject signing in again). -/
inductive RegOp where
  | revoke (t : Token)
  | revokeAllFor (uid : String)
  | save (uid : String) (t : Token) (isAdmin : Bool) (now : Nat)

/-- Whether an operation writes the registry record keyed (uid, j): only a
save for that very (subject id, jti) pair does. -/
def writesKey (op : RegOp) (uid j : String) : Bool :=
  match op with
  | .save u t _ _ => u == uid && saveKeyOf t == some j
  | _ => false

/-- One registry step (a failed save leaves the state unchanged). -/
def regStep (s : RegistryState) : RegOp → RegistryState
  | .revoke t => (revokeRefreshToken t s).2
  | .revokeAllFor uid => (revokeAllUserRefreshTokens uid s).2
  | .save uid t isAdmin now =>
    match saveRefreshToken uid t isAdmin now s with
    | .ok s' => s'
    | .error _ => s

/-- A sequence of registry steps. -/
def regSteps (s : RegistryState) (ops : List RegOp) : RegistryState :=
  ops.foldl regStep s

/-! ## Blacklist and credential middleware -/

/-- `isTokenBlacklisted(accessToken)`: digest the token and test existence of
`auth:blacklist:<digest>`.  The SHA-256 digest is an uninterpreted function
parameter `dg`; `ledger` is the set of existing blacklist keys. -/
def isTokenBlacklisted (dg : Token → String) (ledger : String → Bool) (t : Token) : Bool :=
  ledger ("auth:blacklist:" ++ dg t)

/-- The identity the middleware attaches to the request: the anonymous
default user `{role: "anon", id: ""}` or a verified payload. -/
inductive Attached where
  | anon
  | ident (p : Payload)
  deriving DecidableEq, Repr

/-- Observable outcome of the middleware: response status (if it responded),
the attached `req.user`, the attached `req.token`, and whether `next()` ran. -/
structure MwOutcome where
  status : Option Nat
  user : Attached
  tok : Option Token
  next : Bool
  deriving DecidableEq, Repr

/-- The token-validation phase of `userMiddleware` (after bearer extraction):
blacklist check first, then `jwt.verify` under `ACCESS_TOKEN_SECRET`;
blacklisted ⇒ 401 anonymous, expired ⇒ 401 anonymous, other verification
failure ⇒ 403 anonymous, success ⇒ attach the payload and the raw token and
call `next()`. -/
def userMiddleware (dg : Token → String) (ledger : String → Bool) (env : Env)
    (now : Nat) (t : Token) : MwOutcome :=
  if isTokenBlacklisted dg ledger t then
    { status := some 401, user := .anon, tok := none, next := false }
  else
    match jwtVerify t env.ACCESS_TOKEN_SECRET now with
    | .ok p => { status := none, user := .ident p, tok := some t, next := true }
    | .error .expired => { status := some 401, user := .anon, tok := none, next := false }
    | .error .invalid => { status := some 403, user := .anon, tok := none, next := false }

/-! ## The refresh flow of the auth service -/

/-- `AuthService.handleRefreshToken(refreshToken)`: 401 when no token is
presented; otherwise run `verifyRefreshToken` and mint a fresh access token
from the verified identity; every verification failure is caught and
re-thrown as status 403 with a fixed message. -/
def handleRefreshToken (env : Env) (s : RegistryState) (now : Nat)
    (rt : Option Token) : Except (Nat × String) Token :=
  match rt with
  | none => .error (401, "Refresh token là bắt buộc")
  | some t =>
    match verifyRefreshToken env s now t with
    | .error _ => .error (403, "Refresh token không hợp lệ hoặc đã hết hạn")
    | .ok decoded =>
      match decoded.user with
      | some (.obj o) =>
        let userInfo : UserObj :=
          { id := jsOrS o.id o._id, _id := none, role := o.role }
        .ok (generateAccessToken env (.obj userInfo) decoded.isAdmin now)
      | _ => .error (403, "Refresh token không hợp lệ hoặc đã hết hạn")

/-! ## OTP store (`otp:<uid>:<purpose>` keys) -/

/-- The OTP portion of the Redis state: `s uid purpose` models key
`otp:<uid>:<purpose>`. -/
def OtpState := String → String → Option String

/-- Point update of the OTP store. -/
def otpSet (s : OtpState) (uid purpose : String) (v : Option String) : OtpState :=
  fun u p => if u = uid ∧ p = purpose then v else s u p

/-- `verifyOTP(userId, otp, purpose)`: falsy argument ⇒ `false`; absent or
non-matching stored code ⇒ `false`, store untouched; matching code ⇒ delete
the stored code and return `true`. -/
def verifyOTP (uid otp purpose : String) (s : OtpState) : Bool × OtpState :=
  if uid = "" ∨ otp = "" ∨ purpose = "" then (false, s)
  else
    match s uid purpose with
    | none => (false, s)
    | some stored =>
      if stored = "" then (false, s)
      else if stored ≠ otp then (false, s)
      else (true, otpSet s uid purpose none)

/-- Iterated `verifyOTP` calls with a list of guesses: the per-call results
and the final store. -/
def runGuesses (uid purpose : String) : List String → OtpState → List Bool × OtpState
  | [], s => ([], s)
  | g :: gs, s =>
    let r := verifyOTP uid g purpose s
    let rest := runGuesses uid purpose gs r.2
    (r.1 :: rest.1, rest.2)

/-! ## OTP rate limiting (`otp-ratelimit:<contact>` keys) -/

/-- The rate-limit portion of the Redis state: per key, the counter value and
its optional expiry instant (`none` = no TTL set). -/
def RLState := String → Option (Nat × Option Nat)

/-- `getRateLimitKey(identifier)`. -/
def rlKey (contact : String) : String := "otp-ratelimit:" ++ contact

/-- Point update of a rate-limit key. -/
def rlSet (s : RLState) (k : String) (v : Option (Nat × Option Nat)) : RLState :=
  fun k' => if k' = k then v else s k'

/-- `GET` through TTL semantics: a key whose expiry has passed reads as
absent. -/
def rlLive (s : RLState) (now : Nat) (k : String) : Option Nat :=
  match s k with
  | none => none
  | some (v, none) => some v
  | some (v, some e) => if now < e then some v else none

/-- `INCR`: increment a live key preserving its TTL; an absent or expired key
becomes a fresh counter at 1 with no TTL. -/
def rlIncr (s : RLState) (now : Nat) (k : String) : RLState :=
  match s k with
  | none => rlSet s k (some (1, none))
  | some (v, none) => rlSet s k (some (v + 1, none))
  | some (v, some e) =>
    if now < e then rlSet s k (some (v + 1, some e))
    else rlSet s k (some (1, none))

/-- `EXPIRE key seconds` issued at `now`: set the expiry instant of an
existing key; no-op on a missing key. -/
def rlExpire (s : RLState) (now : Nat) (k : String) (win : Nat) : RLState :=
  match s k with
  | none => s
  | some (v, _) => rlSet s k (some (v, some (now + win)))

/-- `checkRateLimit(identifier, maxAttempts, windowSeconds)` at time `now`:
read the counter (`|| 0`), reject once it reached `maxAttempts`, otherwise
increment and — only when the key was absent (`attempts === 0` is the strict
JS check, true only for the `null || 0` case) — start the window. -/
def checkRateLimit (contact : String) (maxAttempts win : Nat) (s : RLState)
    (now : Nat) : Bool × RLState :=
  let key := rlKey contact
  let stored := rlLive s now key
  let attempts := stored.getD 0
  if maxAttempts ≤ attempts then (false, s)
  else
    let s1 := rlIncr s now key
    let s2 := if stored = none then rlExpire s1 now key win else s1
    (true, s2)

/-- Iterated `checkRateLimit` calls at the given instants. -/
def runRL (contact : String) (maxAttempts win : Nat) :
    List Nat → RLState → List Bool × RLState
  | [], s => ([], s)
  | now :: ts, s =>
    let r := checkRateLimit contact maxAttempts win s now
    let rest := runRL contact maxAttempts win ts r.2
    (r.1 :: rest.1, rest.2)

/-! ## Concrete instances used by witnesses and counterexamples -/

/-- A concrete environment with distinct secrets for all four domains. -/
def env0 : Env :=
  { ACCESS_TOKEN_SECRET := "as"
    REFRESH_TOKEN_SECRET := "rs"
    ADMIN_ACCESS_TOKEN_SECRET := some "aas"
    ADMIN_REFRESH_TOKEN_SECRET := some "ars"
    ACCESS_TOKEN_EXPIRY := none
    ADMIN_TOKEN_EXPIRY := none
    REFRESH_TOKEN_EXPIRY := none
    ADMIN_REFRESH_TOKEN_EXPIRY := none }

/-- A concrete user object. -/
def user0 : UserObj := { id := some "u", _id := none, role := "customer" }

/-- A concrete refresh-token payload for subject `"u"` with jti `"j"`. -/
def payload0 : Payload :=
  { user := some (.obj user0), role := "customer", jti := some "j"
    iat := 0, isAdmin := false, id := none }

/-- A concrete standard-domain refresh token for `payload0`. -/
def tok0 : Token := { payload := some payload0, sig := "rs", exp := 100 }

/-- The registry record for `tok0`. -/
def rec0 : TokenData :=
  { token := tok0, userId := "u", isAdmin := false, createdAt := 0, expiresAt := 100 }

/-- A second payload for the same subject with sibling jti `"k"`. -/
def payload1 : Payload :=
  { user := some (.obj user0), role := "customer", jti := some "k"
    iat := 0, isAdmin := false, id := none }

/-- The sibling refresh token for `payload1`. -/
def tok1 : Token := { payload := some payload1, sig := "rs", exp := 100 }

/-- The registry record for `tok1`. -/
def rec1 : TokenData :=
  { token := tok1, userId := "u", isAdmin := false, createdAt := 0, expiresAt := 100 }

/-- The empty registry. -/
def regEmpty : RegistryState :=
  { records := fun _ _ => none, index := fun _ => [] }

/-- A registry holding both `tok0` (jti `"j"`) and its sibling `tok1`
(jti `"k"`) for subject `"u"`. -/
def reg0 : RegistryState :=
  { records := fun u j =>
      if u = "u" ∧ j = "j" then some rec0
      else if u = "u" ∧ j = "k" then some rec1
      else none
    index := fun u => if u = "u" then [("j", 0), ("k", 0)] else [] }

/-- A concrete OTP store holding code `"123456"` for subject `"u"`,
purpose `"login"`. -/
def otp0 : OtpState :=
  fun u p => if u = "u" ∧ p = "login" then some "123456" else none

/-- The empty rate-limit state. -/
def rl0 : RLState := fun _ => none

/-! ## Helper lemmas: characterizing `verifyRefreshToken` -/

/-- Success characterization of `verifyRefreshToken`. -/
theorem verify_ok_iff (env : Env) (s : RegistryState) (now : Nat) (t : Token) (p : Payload) :
    verifyRefreshToken env s now t = .ok p ↔
      t.payload = some p ∧ ∃ j uid d, p.jti = some j ∧ j ≠ "" ∧ subjectId p = some uid ∧
        s.records uid j = some d ∧ d.token = t ∧
        t.sig = refreshSecretFor env p.isAdmin ∧ now < t.exp := by
  constructor
  · intro h
    unfold verifyRefreshToken at h
    cases hp : t.payload with
    | none => simp only [hp] at h; exact Except.noConfusion h
    | some q =>
      simp only [hp] at h
      cases hj : q.jti with
      | none => simp only [hj] at h; exact Except.noConfusion h
      | some j =>
        simp only [hj] at h
        by_cases hje : j = ""
        · rw [if_pos hje] at h; exact Except.noConfusion h
        · rw [if_neg hje] at h
          cases hsub : subjectId q with
          | none => simp only [hsub] at h; exact Except.noConfusion h
          | some uid =>
            simp only [hsub] at h
            cases hrec : s.records uid j with
            | none => simp only [hrec] at h; exact Except.noConfusion h
            | some d =>
              simp only [hrec] at h
              by_cases hd : d.token ≠ t
              · rw [if_pos hd] at h; exact Except.noConfusion h
              · rw [if_neg hd] at h
                by_cases hsig : t.sig ≠ refreshSecretFor env q.isAdmin
                · rw [if_pos hsig] at h; exact Except.noConfusion h
                · rw [if_neg hsig] at h
                  by_cases hexp : t.exp ≤ now
                  · rw [if_pos hexp] at h; exact Except.noConfusion h
                  · rw [if_neg hexp] at h
                    injection h with hqp
                    subst hqp
                    exact ⟨rfl, j, uid, d, hj, hje, hsub, hrec, not_ne_iff.mp hd,
                      not_ne_iff.mp hsig, Nat.lt_of_not_le hexp⟩
  · rintro ⟨hp, j, uid, d, hj, hje, hsub, hrec, hd, hsig, hexp⟩
    unfold verifyRefreshToken
    simp only [hp, hj, hsub, hrec, if_neg hje]
    rw [if_neg (not_ne_iff.mpr hd), if_neg (not_ne_iff.mpr hsig),
      if_neg (Nat.not_le.mpr hexp)]

/-- Registry-miss characterization of `verifyRefreshToken`. -/
theorem verify_registry_miss (env : Env) (s : RegistryState) (now : Nat) (t : Token)
    (p : Payload) (j uid : String) (hp : t.payload = some p) (hj : p.jti = some j)
    (hje : j ≠ "") (hsub : subjectId p = some uid)
    (hmiss : s.records uid j = none ∨ ∃ d, s.records uid j = some d ∧ d.token ≠ t) :
    verifyRefreshToken env s now t = .error .notFoundOrRevoked := by
  unfold verifyRefreshToken
  rcases hmiss with hmiss | ⟨d, hrec, hd⟩
  · simp only [hp, hj, hsub, hmiss, if_neg hje]
  · simp only [hp, hj, hsub, hrec, if_neg hje]
    rw [if_pos hd]

/-- Codec-failure characterization of `verifyRefreshToken` when the registry
record matches. -/
theorem verify_codec_failure (env : Env) (s : RegistryState) (now : Nat) (t : Token)
    (p : Payload) (j uid : String) (d : TokenData) (hp : t.payload = some p)
    (hj : p.jti = some j) (hje : j ≠ "") (hsub : subjectId p = some uid)
    (hrec : s.records uid j = some d) (hd : d.token = t) :
    (t.sig ≠ refreshSecretFor env p.isAdmin →
      verifyRefreshToken env s now t = .error .invalidSig) ∧
    (t.sig = refreshSecretFor env p.isAdmin → t.exp ≤ now →
      verifyRefreshToken env s now t = .error .expired) := by
  constructor
  · intro hsig
    unfold verifyRefreshToken
    simp only [hp, hj, hsub, hrec, if_neg hje]
    rw [if_neg (not_ne_iff.mpr hd), if_pos hsig]
  · intro hsig hexp
    unfold verifyRefreshToken
    simp only [hp, hj, hsub, hrec, if_neg hje]
    rw [if_neg (not_ne_iff.mpr hd), if_neg (not_ne_iff.mpr hsig), if_pos hexp]

/-- Malformed-token characterization of `verifyRefreshToken`: an undecodable
token or one without a truthy jti fails with the missing-jti error, and a
decodable token with a truthy jti but no truthy subject id fails with the
missing-user-id error. -/
theorem verify_malformed (env : Env) (s : RegistryState) (now : Nat) (t : Token) :
    (t.payload = none → verifyRefreshToken env s now t = .error .missingJti) ∧
    (∀ p, t.payload = some p → (p.jti = none ∨ p.jti = some "") →
      verifyRefreshToken env s now t = .error .missingJti) ∧
    (∀ p j, t.payload = some p → p.jti = some j → j ≠ "" → subjectId p = none →
      verifyRefreshToken env s now t = .error .missingUserId) := by
  refine ⟨fun hp => ?_, fun p hp hj => ?_, fun p j hp hj hje hsub => ?_⟩
  · simp only [verifyRefreshToken, hp]
  · rcases hj with hj | hj
    · simp only [verifyRefreshToken, hp, hj]
    · simp [verifyRefreshToken, hp, hj]
  · simp only [verifyRefreshToken, hp, hj, if_neg hje, hsub]

/-- Claim C1: `verifyRefreshToken` succeeds with the token's identity payload
iff the token decodes with a truthy jti and subject id, a registry record for
(subject id, jti) stores exactly the presented raw token, and the signature
verifies unexpired under the signing domain selected by the token's elevated
(`isAdmin`) flag; a token failing to decode with a jti and a subject id fails
with the malformed-token errors (missing-jti / missing-user-id); a registry
miss or raw-string mismatch yields the not-found-or-revoked error; codec
failures (bad signature / expiry) yield errors distinct from it. -/
theorem c1_verify_refresh_token_characterization (env : Env) (s : RegistryState)
    (now : Nat) (t : Token) :
    (∀ p, verifyRefreshToken env s now t = .ok p ↔
      t.payload = some p ∧ ∃ j uid d, p.jti = some j ∧ j ≠ "" ∧ subjectId p = some uid ∧
        s.records uid j = some d ∧ d.token = t ∧
        t.sig = refreshSecretFor env p.isAdmin ∧ now < t.exp) ∧
    (t.payload = none → verifyRefreshToken env s now t = .error .missingJti) ∧
    (∀ p, t.payload = some p → (p.jti = none ∨ p.jti = some "") →
      verifyRefreshToken env s now t = .error .missingJti) ∧
    (∀ p j, t.payload = some p → p.jti = some j → j ≠ "" → subjectId p = none →
      verifyRefreshToken env s now t = .error .missingUserId) ∧
    (∀ p j uid, t.payload = some p → p.jti = some j → j ≠ "" → subjectId p = some uid →
      (s.records uid j = none ∨ ∃ d, s.records uid j = some d ∧ d.token ≠ t) →
      verifyRefreshToken env s now t = .error .notFoundOrRevoked) ∧
    (∀ p j uid d, t.payload = some p → p.jti = some j → j ≠ "" → subjectId p = some uid →
      s.records uid j = some d → d.token = t →
      (t.sig ≠ refreshSecretFor env p.isAdmin →
        verifyRefreshToken env s now t = .error .invalidSig) ∧
      (t.sig = refreshSecretFor env p.isAdmin → t.exp ≤ now →
        verifyRefreshToken env s now t = .error .expired)) ∧
    (VErr.notFoundOrRevoked ≠ VErr.invalidSig ∧ VErr.notFoundOrRevoked ≠ VErr.expired ∧
      VErr.notFoundOrRevoked ≠ VErr.missingJti ∧ VErr.notFoundOrRevoked ≠ VErr.missingUserId) :=
  ⟨fun p => verify_ok_iff env s now t p,
   (verify_malformed env s now t).1,
   (verify_malformed env s now t).2.1,
   (verify_malformed env s now t).2.2,
   fun p j uid hp hj hje hsub hmiss => verify_registry_miss env s now t p j uid hp hj hje hsub hmiss,
   fun p j uid d hp hj hje hsub hrec hd => verify_codec_failure env s now t p j uid d hp hj hje hsub hrec hd,
   by decide, by decide, by decide, by decide⟩

/-- Witness for C1 at concrete inputs: `tok0` verifies against `reg0`; with
`tok0`'s record deleted the same call fails with the registry-miss error; an
undecodable token fails with the missing-jti error; a decodable token with a
jti but no subject id fails with the missing-user-id error. -/
theorem c1_witness :
    verifyRefreshToken env0 reg0 50 tok0 = .ok payload0 ∧
    verifyRefreshToken env0 regEmpty 50 tok0 = .error .notFoundOrRevoked ∧
    verifyRefreshToken env0 reg0 50 ⟨none, "rs", 100⟩ = .error .missingJti ∧
    verifyRefreshToken env0 reg0 50
      ⟨some ⟨none, "customer", some "j", 0, false, none⟩, "rs", 100⟩ =
      .error .missingUserId := by
  refine ⟨?_, ?_, ?_, ?_⟩
  · exact ((c1_verify_refresh_token_characterization env0 reg0 50 tok0).1 payload0).mpr
      ⟨rfl, "j", "u", rec0, rfl, by decide, by decide, by decide, rfl, rfl, by decide⟩
  · exact (c1_verify_refresh_token_characterization env0 regEmpty 50 tok0).2.2.2.2.1
      payload0 "j" "u" rfl rfl (by decide) (by decide) (Or.inl rfl)
  · exact (c1_verify_refresh_token_characterization env0 reg0 50 ⟨none, "rs", 100⟩).2.1 rfl
  · exact (c1_verify_refresh_token_characterization env0 reg0 50
      ⟨some ⟨none, "customer", some "j", 0, false, none⟩, "rs", 100⟩).2.2.2.1
      _ "j" rfl rfl (by decide) (by decide)

/-! ## Helper lemmas: `verifyOTP` -/

/-- A non-matching guess leaves the OTP store untouched and returns `false`. -/
theorem verifyOTP_mismatch (s : OtpState) (uid g purpose code : String)
    (hstored : s uid purpose = some code) (hg : g ≠ code) :
    verifyOTP uid g purpose s = (false, s) := by
  unfold verifyOTP
  by_cases h0 : uid = "" ∨ g = "" ∨ purpose = ""
  · rw [if_pos h0]
  · rw [if_neg h0]
    simp only [hstored]
    by_cases hc : code = ""
    · rw [if_pos hc]
    · rw [if_neg hc, if_pos (Ne.symm hg)]

/-- A matching guess with truthy arguments succeeds and deletes the code. -/
theorem verifyOTP_hit (s : OtpState) (uid code purpose : String)
    (hu : uid ≠ "") (hc : code ≠ "") (hpu : purpose ≠ "")
    (hstored : s uid purpose = some code) :
    verifyOTP uid code purpose s = (true, otpSet s uid purpose none) := by
  unfold verifyOTP
  rw [if_neg (by simp [hu, hc, hpu])]
  simp only [hstored]
  rw [if_neg hc, if_neg (not_ne_iff.mpr rfl)]

/-- With no stored code, `verifyOTP` fails. -/
theorem verifyOTP_absent (s : OtpState) (uid otp purpose : String)
    (habs : s uid purpose = none) :
    (verifyOTP uid otp purpose s).1 = false := by
  unfold verifyOTP
  by_cases h0 : uid = "" ∨ otp = "" ∨ purpose = ""
  · rw [if_pos h0]
  · rw [if_neg h0]; simp only [habs]

/-- Anatomy of a successful `verifyOTP` call. -/
theorem verifyOTP_true_elim (s : OtpState) (uid otp purpose : String)
    (h : (verifyOTP uid otp purpose s).1 = true) :
    uid ≠ "" ∧ otp ≠ "" ∧ purpose ≠ "" ∧ s uid purpose = some otp ∧
    (verifyOTP uid otp purpose s).2 = otpSet s uid purpose none := by
  unfold verifyOTP at h ⊢
  by_cases h0 : uid = "" ∨ otp = "" ∨ purpose = ""
  · rw [if_pos h0] at h; exact absurd h (by simp)
  · rw [if_neg h0] at h ⊢
    push_neg at h0
    cases hstored : s uid purpose with
    | none => rw [hstored] at h; exact absurd h (by simp)
    | some stored =>
      simp only [hstored] at h ⊢
      by_cases hc : stored = ""
      · rw [if_pos hc] at h; exact absurd h (by simp)
      · rw [if_neg hc] at h ⊢
        by_cases hne : stored ≠ otp
        · rw [if_pos hne] at h; exact absurd h (by simp)
        · rw [if_neg hne] at h ⊢
          exact ⟨h0.1, h0.2.1, h0.2.2, by rw [not_ne_iff.mp hne], rfl⟩

/-- Claim C8: OTP codes are single-use — if a `verifyOTP` call succeeds, the
immediately repeated call with the same (user id, code, purpose) fails,
because the first success deleted the stored code. -/
theorem c8_otp_single_use (s : OtpState) (uid code purpose : String)
    (h : (verifyOTP uid code purpose s).1 = true) :
    (verifyOTP uid code purpose (verifyOTP uid code purpose s).2).1 = false := by
  obtain ⟨-, -, -, -, hs2⟩ := verifyOTP_true_elim s uid code purpose h
  rw [hs2]
  exact verifyOTP_absent _ uid code purpose (by simp [otpSet])

/-- Witness for C8: the stored code `"123456"` verifies once and then fails. -/
theorem c8_witness :
    (verifyOTP "u" "123456" "login" otp0).1 = true ∧
    (verifyOTP "u" "123456" "login" (verifyOTP "u" "123456" "login" otp0).2).1 = false :=
  ⟨by decide, c8_otp_single_use otp0 "u" "123456" "login" (by decide)⟩

/-- Claim C10: failed verifications are non-destructive — any sequence of
wrong guesses against a stored code returns `false` every time, leaves the
store exactly as it was, and the correct code still verifies afterwards; in
particular no bound is placed on the number of wrong attempts. -/
theorem c10_wrong_guesses_frame (s : OtpState) (uid purpose code : String)
    (gs : List String) (hstored : s uid purpose = some code)
    (hwrong : ∀ g ∈ gs, g ≠ code) :
    (runGuesses uid purpose gs s).1 = List.replicate gs.length false ∧
    (runGuesses uid purpose gs s).2 = s ∧
    (uid ≠ "" → purpose ≠ "" → code ≠ "" →
      (verifyOTP uid code purpose (runGuesses uid purpose gs s).2).1 = true) := by
  have key : (runGuesses uid purpose gs s).1 = List.replicate gs.length false ∧
      (runGuesses uid purpose gs s).2 = s := by
    induction gs with
    | nil => exact ⟨rfl, rfl⟩
    | cons g rest ih =>
      have hg := hwrong g (List.mem_cons_self g rest)
      have hstep := verifyOTP_mismatch s uid g purpose code hstored hg
      have ih' := ih (fun x hx => hwrong x (List.mem_cons_of_mem g hx))
      simp only [runGuesses, hstep, List.length_cons, List.replicate_succ]
      exact ⟨by rw [ih'.1], ih'.2⟩
  refine ⟨key.1, key.2, fun hu hpu hc => ?_⟩
  rw [key.2, verifyOTP_hit s uid code purpose hu hc hpu hstored]

/-- Witness for C10: three wrong guesses against `otp0` all fail and keep the
store intact, after which the right code succeeds. -/
theorem c10_witness :
    (runGuesses "u" "login" ["000000", "999999", "123457"] otp0).1 =
      List.replicate 3 false ∧
    (runGuesses "u" "login" ["000000", "999999", "123457"] otp0).2 = otp0 ∧
    (verifyOTP "u" "123456" "login"
      (runGuesses "u" "login" ["000000", "999999", "123457"] otp0).2).1 = true := by
  have h := c10_wrong_guesses_frame otp0 "u" "login" "123456"
    ["000000", "999999", "123457"] (by decide) (by decide)
  exact ⟨h.1, h.2.1, h.2.2 (by decide) (by decide) (by decide)⟩

/-! ## Claim C3: the credential middleware -/

/-- Claim C3: a bearer token whose digest is in the revocation ledger gets a
401 response with the anonymous identity, whatever the verification outcome
would have been (the blacklist check precedes signature verification, so the
conclusion holds for every environment and instant); for a non-blacklisted
token, an expired verification yields 401 and any other verification failure
yields 403, both with the anonymous identity; on success the verified payload
and the raw token are attached and the chain proceeds. -/
theorem c3_middleware_classification (dg : Token → String) (ledger : String → Bool)
    (env : Env) (now : Nat) (t : Token) :
    (isTokenBlacklisted dg ledger t = true →
      userMiddleware dg ledger env now t =
        { status := some 401, user := .anon, tok := none, next := false }) ∧
    (isTokenBlacklisted dg ledger t = false →
      (jwtVerify t env.ACCESS_TOKEN_SECRET now = .error .expired →
        userMiddleware dg ledger env now t =
          { status := some 401, user := .anon, tok := none, next := false }) ∧
      (jwtVerify t env.ACCESS_TOKEN_SECRET now = .error .invalid →
        userMiddleware dg ledger env now t =
          { status := some 403, user := .anon, tok := none, next := false }) ∧
      (∀ p, jwtVerify t env.ACCESS_TOKEN_SECRET now = .ok p →
        userMiddleware dg ledger env now t =
          { status := none, user := .ident p, tok := some t, next := true })) := by
  constructor
  · intro hb
    unfold userMiddleware
    rw [if_pos hb]
  · intro hb
    refine ⟨fun hv => ?_, fun hv => ?_, fun p hv => ?_⟩ <;>
      · unfold userMiddleware
        rw [if_neg (by simp [hb]), hv]

/-- Witness for C3: a blacklisted token gets 401 even though it would verify,
and the same token, not blacklisted, authenticates. -/
theorem c3_witness :
    userMiddleware (fun _ => "h") (fun k => k == "auth:blacklist:h") env0 0
      { payload := some payload0, sig := "as", exp := 100 } =
      { status := some 401, user := .anon, tok := none, next := false } ∧
    userMiddleware (fun _ => "h") (fun _ => false) env0 0
      { payload := some payload0, sig := "as", exp := 100 } =
      { status := none, user := .ident payload0
        tok := some { payload := some payload0, sig := "as", exp := 100 }, next := true } :=
  ⟨(c3_middleware_classification (fun _ => "h") (fun k => k == "auth:blacklist:h")
      env0 0 _).1 (by decide),
   ((c3_middleware_classification (fun _ => "h") (fun _ => false) env0 0 _).2
      (by decide)).2.2 payload0 rfl⟩

/-! ## Claim C4: access-token round trip and domain separation -/

/-- `jwt.verify` succeeds on an unexpired token presented with its own
signing secret. -/
theorem jwtVerify_ok (t : Token) (p : Payload) (secret : String) (now : Nat)
    (hp : t.payload = some p) (hs : t.sig = secret) (hlt : now < t.exp) :
    jwtVerify t secret now = .ok p := by
  unfold jwtVerify
  simp only [hp]
  rw [if_neg (not_ne_iff.mpr hs), if_neg (Nat.not_le.mpr hlt)]

/-- `jwt.verify` under any secret other than the token's signing secret
fails with the non-expiry error. -/
theorem jwtVerify_wrong_secret (t : Token) (secret : String) (now : Nat)
    (hs : t.sig ≠ secret) : jwtVerify t secret now = .error .invalid := by
  unfold jwtVerify
  cases t.payload with
  | none => rfl
  | some p => exact if_pos hs

/-- Claim C4: a token minted by `generateAccessToken` verifies unexpired
under the signing domain matching its elevated flag and returns a payload
embedding the input identity; under the other domain's secret it never
verifies — provided the elevated secret is configured and distinct from the
standard one. -/
theorem c4_access_token_round_trip (env : Env) (u : JsUser) (now now' : Nat)
    (sA : String) (hcfg : env.ADMIN_ACCESS_TOKEN_SECRET = some sA)
    (hne : sA ≠ env.ACCESS_TOKEN_SECRET) :
    (now' < (generateAccessToken env u true now).exp →
      ∃ p, jwtVerify (generateAccessToken env u true now) sA now' = .ok p ∧
        p.user = some u) ∧
    (∀ m, jwtVerify (generateAccessToken env u true now) env.ACCESS_TOKEN_SECRET m =
      .error .invalid) ∧
    (now' < (generateAccessToken env u false now).exp →
      ∃ p, jwtVerify (generateAccessToken env u false now) env.ACCESS_TOKEN_SECRET now' =
        .ok p ∧ p.user = some u) ∧
    (∀ m, jwtVerify (generateAccessToken env u false now) sA m = .error .invalid) := by
  have hsigT : (generateAccessToken env u true now).sig = sA := by
    simp [generateAccessToken, accessSecretFor, hcfg]
  have hsigF : (generateAccessToken env u false now).sig = env.ACCESS_TOKEN_SECRET := by
    simp [generateAccessToken, accessSecretFor]
  refine ⟨fun hlt => ?_, fun m => ?_, fun hlt => ?_, fun m => ?_⟩
  · exact ⟨_, jwtVerify_ok _ _ _ _ rfl hsigT hlt, rfl⟩
  · exact jwtVerify_wrong_secret _ _ _ (by rw [hsigT]; exact hne)
  · exact ⟨_, jwtVerify_ok _ _ _ _ rfl hsigF hlt, rfl⟩
  · exact jwtVerify_wrong_secret _ _ _ (by rw [hsigF]; exact fun h => hne h.symm)

/-- Witness for C4 at `env0` (standard secret `"as"`, elevated secret
`"aas"`), verifying both tokens at issuance time. -/
theorem c4_witness :
    (∃ p, jwtVerify (generateAccessToken env0 (.obj user0) true 0) "aas" 0 = .ok p ∧
      p.user = some (.obj user0)) ∧
    jwtVerify (generateAccessToken env0 (.obj user0) true 0)
      env0.ACCESS_TOKEN_SECRET 0 = .error .invalid ∧
    (∃ p, jwtVerify (generateAccessToken env0 (.obj user0) false 0)
      env0.ACCESS_TOKEN_SECRET 0 = .ok p ∧ p.user = some (.obj user0)) ∧
    jwtVerify (generateAccessToken env0 (.obj user0) false 0) "aas" 0 = .error .invalid := by
  have h := c4_access_token_round_trip env0 (.obj user0) 0 0 "aas" rfl (by decide)
  exact ⟨h.1 (by decide), h.2.1 0, h.2.2.1 (by decide), h.2.2.2 0⟩

/-! ## Claim C7: boundary classification of refresh failures -/

/-- Counterexample to C7 as stated: a refresh request whose token has no
registry record (revoked / never saved) fails with status 403, not with the
401 the claim requires for the revoked case. -/
theorem c7_counterexample :
    handleRefreshToken env0 regEmpty 0 (some tok0) =
      .error (403, "Refresh token không hợp lệ hoặc đã hết hạn") ∧
    (403 : Nat) ≠ 401 :=
  ⟨rfl, by decide⟩

/-- Claim C7 (amended): the refresh flow maps every `verifyRefreshToken`
failure — expired and revoked (registry miss) included — to status 403 with
one fixed message, reserving 401 for the case of no presented token; the
fixed message is a constant independent of the environment, the registry
state and the token, so it never echoes the signing secret or the stored raw
token. -/
theorem c7_refresh_failure_classification (env : Env) (s : RegistryState) (now : Nat)
    (t : Token) (e : VErr) (h : verifyRefreshToken env s now t = .error e) :
    handleRefreshToken env s now (some t) =
      .error (403, "Refresh token không hợp lệ hoặc đã hết hạn") ∧
    handleRefreshToken env s now none = .error (401, "Refresh token là bắt buộc") := by
  constructor
  · simp only [handleRefreshToken]
    rw [h]
  · rfl

/-- Witness for C7 (amended) at a concrete revoked-token input. -/
theorem c7_witness :
    handleRefreshToken env0 regEmpty 5 (some tok0) =
      .error (403, "Refresh token không hợp lệ hoặc đã hết hạn") ∧
    handleRefreshToken env0 regEmpty 5 none = .error (401, "Refresh token là bắt buộc") :=
  c7_refresh_failure_classification env0 regEmpty 5 tok0 .notFoundOrRevoked rfl

/-! ## Claim C5: revocation removes exactly one record and one index entry -/

/-- Unfolding equation for `hFind` on a nonempty hash. -/
theorem hFind_cons (e : String × Nat) (rest : List (String × Nat)) (field : String) :
    hFind (e :: rest) field = if e.1 = field then some e.2 else hFind rest field := rfl

/-- Unfolding equation for `hDelList` on a nonempty hash. -/
theorem hDelList_cons (e : String × Nat) (rest : List (String × Nat)) (field : String) :
    hDelList (e :: rest) field =
      if e.1 = field then hDelList rest field else e :: hDelList rest field := rfl

/-- `HDEL` removes the deleted field. -/
theorem hFind_hDelList_self (l : List (String × Nat)) (j : String) :
    hFind (hDelList l j) j = none := by
  induction l with
  | nil => rfl
  | cons e rest ih =>
    rw [hDelList_cons]
    by_cases he : e.1 = j
    · rw [if_pos he]; exact ih
    · rw [if_neg he, hFind_cons, if_neg he]; exact ih

/-- `HDEL` leaves every other field of the hash unchanged. -/
theorem hFind_hDelList_other (l : List (String × Nat)) (j j' : String) (h : j' ≠ j) :
    hFind (hDelList l j) j' = hFind l j' := by
  induction l with
  | nil => rfl
  | cons e rest ih =>
    rw [hDelList_cons]
    by_cases he : e.1 = j
    · rw [if_pos he, ih, hFind_cons, if_neg (fun hx => h (hx.symm.trans he))]
    · rw [if_neg he, hFind_cons, hFind_cons]
      by_cases he' : e.1 = j'
      · rw [if_pos he', if_pos he']
      · rw [if_neg he', if_neg he', ih]

/-- Claim C5: `revokeRefreshToken` deletes exactly the registry record keyed
by the token's (subject id, jti) and that jti's field of the subject's index
hash; every other record, every other subject's index, and every sibling
field of the same subject's index are unchanged. -/
theorem c5_revoke_frame (s : RegistryState) (t : Token) (p : Payload) (j uid : String)
    (hp : t.payload = some p) (hj : p.jti = some j) (hje : j ≠ "")
    (hsub : revokeSubject p = some uid) :
    (revokeRefreshToken t s).1 = true ∧
    (revokeRefreshToken t s).2.records uid j = none ∧
    hFind ((revokeRefreshToken t s).2.index uid) j = none ∧
    (∀ u' j', (u' ≠ uid ∨ j' ≠ j) →
      (revokeRefreshToken t s).2.records u' j' = s.records u' j') ∧
    (∀ u', u' ≠ uid → (revokeRefreshToken t s).2.index u' = s.index u') ∧
    (∀ j', j' ≠ j → hFind ((revokeRefreshToken t s).2.index uid) j' = hFind (s.index uid) j') := by
  have hrev : revokeRefreshToken t s =
      (true,
        { records := setRec s.records uid j none
          index := fun u => if u = uid then hDelList (s.index uid) j else s.index u }) := by
    unfold revokeRefreshToken
    simp only [hp, hj, hsub, if_neg hje]
  rw [hrev]
  refine ⟨rfl, ?_, ?_, ?_, ?_, ?_⟩
  · show (if uid = uid ∧ j = j then (none : Option TokenData) else s.records uid j) = none
    rw [if_pos ⟨rfl, rfl⟩]
  · show hFind (if uid = uid then hDelList (s.index uid) j else s.index uid) j = none
    rw [if_pos rfl]
    exact hFind_hDelList_self _ j
  · intro u' j' h
    show (if u' = uid ∧ j' = j then (none : Option TokenData) else s.records u' j') =
      s.records u' j'
    exact if_neg (fun hc => h.elim (fun h1 => h1 hc.1) (fun h2 => h2 hc.2))
  · intro u' h
    show (if u' = uid then hDelList (s.index uid) j else s.index u') = s.index u'
    exact if_neg h
  · intro j' h
    show hFind (if uid = uid then hDelList (s.index uid) j else s.index uid) j' =
      hFind (s.index uid) j'
    rw [if_pos rfl]
    exact hFind_hDelList_other _ j j' h

/-- Witness for C5: revoking `tok0` from `reg0` deletes record ("u","j") and
index field "j" while the sibling ("u","k") record and index field survive. -/
theorem c5_witness :
    (revokeRefreshToken tok0 reg0).1 = true ∧
    (revokeRefreshToken tok0 reg0).2.records "u" "j" = none ∧
    hFind ((revokeRefreshToken tok0 reg0).2.index "u") "j" = none ∧
    (revokeRefreshToken tok0 reg0).2.records "u" "k" = reg0.records "u" "k" ∧
    (revokeRefreshToken tok0 reg0).2.index "v" = reg0.index "v" ∧
    hFind ((revokeRefreshToken tok0 reg0).2.index "u") "k" = hFind (reg0.index "u") "k" := by
  have h := c5_revoke_frame reg0 tok0 payload0 "j" "u" rfl rfl (by decide) (by decide)
  exact ⟨h.1, h.2.1, h.2.2.1, h.2.2.2.1 "u" "k" (Or.inr (by decide)),
    h.2.2.2.2.1 "v" (by decide), h.2.2.2.2.2 "k" (by decide)⟩

/-! ## Claim C2: revocation is permanent (absent re-saving) -/

/-- Shape of a successful revocation. -/
theorem revoke_eq (t : Token) (s : RegistryState) (p : Payload) (j uid : String)
    (hp : t.payload = some p) (hj : p.jti = some j) (hje : j ≠ "")
    (hsub : revokeSubject p = some uid) :
    revokeRefreshToken t s =
      (true,
        { records := setRec s.records uid j none
          index := fun u => if u = uid then hDelList (s.index uid) j else s.index u }) := by
  unfold revokeRefreshToken
  simp only [hp, hj, hsub, if_neg hje]

/-- A point deletion cannot resurrect an absent record. -/
theorem setRec_preserves_none (r : String → String → Option TokenData)
    (uid' j' u j : String) (h : r u j = none) : setRec r uid' j' none u j = none := by
  unfold setRec
  by_cases hc : u = uid' ∧ j = j'
  · rw [if_pos hc]
  · rw [if_neg hc]; exact h

/-- A fold of point deletions cannot resurrect an absent record. -/
theorem foldl_erase_preserves_none (L : List String) (r : String → String → Option TokenData)
    (uid' u j : String) (h : r u j = none) :
    (L.foldl (fun r' j' => setRec r' uid' j' none) r) u j = none := by
  induction L generalizing r with
  | nil => exact h
  | cons a L ih => exact ih _ (setRec_preserves_none r uid' a u j h)

/-- A fold of point deletions erases every listed key. -/
theorem foldl_erase_mem (L : List String) (r : String → String → Option TokenData)
    (uid j : String) (hj : j ∈ L) :
    (L.foldl (fun r' j' => setRec r' uid j' none) r) uid j = none := by
  induction L generalizing r with
  | nil => cases hj
  | cons a L ih =>
    rcases List.mem_cons.mp hj with rfl | hmem
    · exact foldl_erase_preserves_none L _ uid uid j (by simp [setRec])
    · exact ih _ hmem

/-- `revokeRefreshToken` cannot resurrect an absent record. -/
theorem revoke_preserves_none (t : Token) (s : RegistryState) (u j : String)
    (h : s.records u j = none) : (revokeRefreshToken t s).2.records u j = none := by
  cases hp : t.payload with
  | none => simp only [revokeRefreshToken, hp]; exact h
  | some p =>
    cases hj' : p.jti with
    | none => simp only [revokeRefreshToken, hp, hj']; exact h
    | some jj =>
      by_cases hje : jj = ""
      · simp only [revokeRefreshToken, hp, hj', if_pos hje]; exact h
      · cases hsub : revokeSubject p with
        | none => simp only [revokeRefreshToken, hp, hj', if_neg hje, hsub]; exact h
        | some uid' =>
          simp only [revokeRefreshToken, hp, hj', if_neg hje, hsub]
          exact setRec_preserves_none s.records uid' jj u j h

/-- `revokeAllUserRefreshTokens` cannot resurrect an absent record. -/
theorem revokeAll_preserves_none (uid' : String) (s : RegistryState) (u j : String)
    (h : s.records u j = none) :
    (revokeAllUserRefreshTokens uid' s).2.records u j = none :=
  foldl_erase_preserves_none _ _ uid' u j h

/-- A save of any other (subject id, jti) record — or a failed save — cannot
resurrect an absent record. -/
theorem save_preserves_other (uid' : String) (t' : Token) (a' : Bool) (n' : Nat)
    (s : RegistryState) (u j : String)
    (hnw : ¬(uid' = u ∧ saveKeyOf t' = some j)) (h : s.records u j = none) :
    (regStep s (.save uid' t' a' n')).records u j = none := by
  cases hp : t'.payload with
  | none => simp only [regStep, saveRefreshToken, hp]; exact h
  | some p =>
    by_cases hexp : t'.exp ≤ n'
    · simp only [regStep, saveRefreshToken, hp, if_pos hexp]; exact h
    · simp only [regStep, saveRefreshToken, hp, if_neg hexp]
      have hkey : ¬(u = uid' ∧ j = p.jti.getD "undefined") := by
        rintro ⟨h1, h2⟩
        exact hnw ⟨h1.symm, by simp [saveKeyOf, hp, h2]⟩
      exact (if_neg hkey).trans h

/-- No registry step other than a save of that very (subject id, jti) record
resurrects an absent record. -/
theorem regStep_preserves_none (s : RegistryState) (op : RegOp) (u j : String)
    (hnw : writesKey op u j = false) (h : s.records u j = none) :
    (regStep s op).records u j = none := by
  cases op with
  | revoke t => exact revoke_preserves_none t s u j h
  | revokeAllFor uid' => exact revokeAll_preserves_none uid' s u j h
  | save uid' t' a' n' =>
    refine save_preserves_other uid' t' a' n' s u j ?_ h
    rintro ⟨h1, h2⟩
    simp [writesKey, h1, h2] at hnw

/-- No sequence of registry steps resurrects an absent record, as long as
none of them saves that very (subject id, jti) record. -/
theorem regSteps_preserves_none (ops : List RegOp) (s : RegistryState) (u j : String)
    (hops : ∀ op ∈ ops, writesKey op u j = false)
    (h : s.records u j = none) : (regSteps s ops).records u j = none := by
  induction ops generalizing s with
  | nil => exact h
  | cons op ops ih =>
    exact ih _ (fun x hx => hops x (List.mem_cons_of_mem op hx))
      (regStep_preserves_none s op u j (hops op (List.mem_cons_self op ops)) h)

/-- Claim C2: once a refresh token has been revoked — by `revokeRefreshToken`
on the token itself, or by `revokeAllUserRefreshTokens` on its subject while
its jti was listed in the subject's index — `verifyRefreshToken` fails on it
at every later time and after every further sequence of registry operations,
revocations and saves alike, even though its signature may still be valid
and unexpired; the only exclusion is the claim's own proviso, a later
`saveRefreshToken` re-persisting the same (subject id, jti) record
(`writesKey op uid j = false`), so saves of other records — e.g. the subject
signing in again with a fresh jti — are permitted. -/
theorem c2_revoked_token_never_verifies (env : Env) (s : RegistryState) (t : Token)
    (p : Payload) (j uid : String) (ops : List RegOp) (now : Nat) (s₀ : RegistryState)
    (hp : t.payload = some p) (hj : p.jti = some j) (hsub : subjectId p = some uid)
    (hrev : s₀ = (revokeRefreshToken t s).2 ∨
      (s₀ = (revokeAllUserRefreshTokens uid s).2 ∧ j ∈ (s.index uid).map Prod.fst))
    (hops : ∀ op ∈ ops, writesKey op uid j = false) :
    ∀ q, verifyRefreshToken env (regSteps s₀ ops) now t ≠ .ok q := by
  intro q hok
  rw [verify_ok_iff] at hok
  obtain ⟨hpq, j', uid', d, hj', hje', hsub', hrec, -, -, -⟩ := hok
  have hq : q = p := Option.some.inj (hpq.symm.trans hp)
  rw [hq] at hj' hsub'
  have hjj : j' = j := Option.some.inj (hj'.symm.trans hj)
  rw [hjj] at hje' hrec
  have huu : uid' = uid := Option.some.inj (hsub'.symm.trans hsub)
  rw [huu] at hrec
  have hbase : s₀.records uid j = none := by
    rcases hrev with rfl | ⟨rfl, hmem⟩
    · have hsubR : revokeSubject p = some uid := by
        unfold revokeSubject
        rw [hsub]
      rw [revoke_eq t s p j uid hp hj hje' hsubR]
      simp [setRec]
    · exact foldl_erase_mem _ _ uid j hmem
  rw [regSteps_preserves_none ops s₀ uid j hops hbase] at hrec
  exact Option.noConfusion hrec

/-- Witness for C2: after revoking `tok0` out of `reg0`, then saving the
sibling token `tok1` for the same subject (the subject signing in again) and
running a revoke-all for an unrelated subject, `tok0` still fails to
verify. -/
theorem c2_witness :
    verifyRefreshToken env0 (regSteps (revokeRefreshToken tok0 reg0).2
      [RegOp.save "u" tok1 false 0, RegOp.revokeAllFor "v"]) 50 tok0 ≠ .ok payload0 :=
  c2_revoked_token_never_verifies env0 reg0 tok0 payload0 "j" "u"
    [RegOp.save "u" tok1 false 0, RegOp.revokeAllFor "v"] 50
    (revokeRefreshToken tok0 reg0).2
    rfl rfl (by decide) (Or.inl rfl) (by decide) payload0

/-! ## Claim C9: OTP request rate limiting -/

/-- A `checkRateLimit` call finding no live counter succeeds, starting a
fresh window. -/
theorem checkRL_fresh (contact : String) (maxA win : Nat) (s : RLState) (now : Nat)
    (habs : rlLive s now (rlKey contact) = none) (hpos : 0 < maxA) :
    (checkRateLimit contact maxA win s now).1 = true ∧
    (checkRateLimit contact maxA win s now).2 (rlKey contact) =
      some (1, some (now + win)) := by
  have hincr : rlIncr s now (rlKey contact) = rlSet s (rlKey contact) (some (1, none)) := by
    unfold rlIncr
    cases hk : s (rlKey contact) with
    | none => rfl
    | some pair =>
      obtain ⟨v, e⟩ := pair
      cases e with
      | none => exfalso; simp [rlLive, hk] at habs
      | some E =>
        have hnlt : ¬ now < E := by
          intro hlt
          simp [rlLive, hk, hlt] at habs
        exact if_neg hnlt
  constructor
  · simp [checkRateLimit, habs, Nat.not_le.mpr hpos]
  · simp [checkRateLimit, habs, Nat.not_le.mpr hpos, hincr, rlExpire, rlSet]

/-- A `checkRateLimit` call finding a live counter strictly below the limit
succeeds and increments it, preserving the window. -/
theorem checkRL_live (contact : String) (maxA win : Nat) (s : RLState) (now v E : Nat)
    (hkey : s (rlKey contact) = some (v, some E)) (hnow : now < E) (hlt : v < maxA) :
    (checkRateLimit contact maxA win s now).1 = true ∧
    (checkRateLimit contact maxA win s now).2 (rlKey contact) = some (v + 1, some E) := by
  have hlive : rlLive s now (rlKey contact) = some v := by
    simp [rlLive, hkey, hnow]
  constructor
  · simp [checkRateLimit, hlive, Nat.not_le.mpr hlt]
  · simp [checkRateLimit, hlive, Nat.not_le.mpr hlt, rlIncr, hkey, hnow, rlSet]

/-- A `checkRateLimit` call finding a live counter at (or beyond) the limit
rejects and leaves the state untouched. -/
theorem checkRL_limit (contact : String) (maxA win : Nat) (s : RLState) (now v : Nat)
    (hlive : rlLive s now (rlKey contact) = some v) (hge : maxA ≤ v) :
    checkRateLimit contact maxA win s now = (false, s) := by
  simp [checkRateLimit, hlive, hge]

/-- Counting invariant of iterated `checkRateLimit` calls inside a live
window. -/
theorem runRL_counting (contact : String) (maxA win E : Nat) (rest : List Nat)
    (s : RLState) (j : Nat)
    (hkey : s (rlKey contact) = some (j, some E))
    (hin : ∀ t ∈ rest, t < E)
    (hle : j + rest.length ≤ maxA) :
    (runRL contact maxA win rest s).1 = List.replicate rest.length true ∧
    (runRL contact maxA win rest s).2 (rlKey contact) = some (j + rest.length, some E) := by
  induction rest generalizing s j with
  | nil => exact ⟨rfl, hkey⟩
  | cons t ts ih =>
    rw [List.length_cons] at hle
    have ht : t < E := hin t (List.mem_cons_self t ts)
    have hlt : j < maxA := by omega
    obtain ⟨hb, hk⟩ := checkRL_live contact maxA win s t j E hkey ht hlt
    have ihr := ih (checkRateLimit contact maxA win s t).2 (j + 1) hk
      (fun x hx => hin x (List.mem_cons_of_mem t hx)) (by omega)
    refine ⟨?_, ?_⟩
    · simp only [runRL, List.length_cons, List.replicate_succ]
      rw [hb, ihr.1]
    · simp only [runRL, List.length_cons]
      have harith : j + 1 + ts.length = j + (ts.length + 1) := by omega
      rw [ihr.2, harith]

/-- Claim C9: starting from no counter for a contact, the first `maxAttempts`
`checkRateLimit` calls within the window opened by the first call all return
`true`; with the limit reached, any further call inside the window returns
`false` and changes nothing; once the window has elapsed the counter entry is
dead and the next call succeeds with a fresh count of one. -/
theorem c9_rate_limit_window (contact : String) (maxA win : Nat) (s : RLState)
    (t0 : Nat) (rest : List Nat)
    (habs : s (rlKey contact) = none)
    (hlen : (t0 :: rest).length = maxA)
    (hin : ∀ t ∈ rest, t < t0 + win) :
    (runRL contact maxA win (t0 :: rest) s).1 = List.replicate maxA true ∧
    (∀ t', t' < t0 + win →
      checkRateLimit contact maxA win ((runRL contact maxA win (t0 :: rest) s).2) t' =
        (false, (runRL contact maxA win (t0 :: rest) s).2)) ∧
    (∀ t'', t0 + win ≤ t'' →
      (checkRateLimit contact maxA win ((runRL contact maxA win (t0 :: rest) s).2) t'').1 =
        true ∧
      (checkRateLimit contact maxA win ((runRL contact maxA win (t0 :: rest) s).2) t'').2
        (rlKey contact) = some (1, some (t'' + win))) := by
  simp only [List.length_cons] at hlen
  have hpos : 0 < maxA := by omega
  obtain ⟨hb0, hk0⟩ := checkRL_fresh contact maxA win s t0 (by simp [rlLive, habs]) hpos
  have hcount := runRL_counting contact maxA win (t0 + win) rest
    (checkRateLimit contact maxA win s t0).2 1 hk0 hin (by omega)
  have hkeyN : (runRL contact maxA win rest (checkRateLimit contact maxA win s t0).2).2
      (rlKey contact) = some (maxA, some (t0 + win)) := by
    have harith : 1 + rest.length = maxA := by omega
    rw [hcount.2, harith]
  refine ⟨?_, ?_, ?_⟩
  · simp only [runRL]
    rw [hb0, hcount.1, ← hlen, List.replicate_succ]
  · intro t' ht'
    simp only [runRL]
    exact checkRL_limit contact maxA win _ t' maxA (by simp [rlLive, hkeyN, ht'])
      (Nat.le_refl maxA)
  · intro t'' ht''
    simp only [runRL]
    exact checkRL_fresh contact maxA win _ t''
      (by simp [rlLive, hkeyN, Nat.not_lt.mpr ht'']) hpos

/-- Witness for C9: limit 2, window 10, calls at times 0 and 1 succeed, a
third call at time 5 is rejected, and a call at time 12 starts over. -/
theorem c9_witness :
    (runRL "a" 2 10 [0, 1] rl0).1 = List.replicate 2 true ∧
    checkRateLimit "a" 2 10 ((runRL "a" 2 10 [0, 1] rl0).2) 5 =
      (false, (runRL "a" 2 10 [0, 1] rl0).2) ∧
    (checkRateLimit "a" 2 10 ((runRL "a" 2 10 [0, 1] rl0).2) 12).1 = true ∧
    (checkRateLimit "a" 2 10 ((runRL "a" 2 10 [0, 1] rl0).2) 12).2 (rlKey "a") =
      some (1, some 22) := by
  have h := c9_rate_limit_window "a" 2 10 rl0 0 [1] rfl rfl (by decide)
  exact ⟨h.1, h.2.1 5 (by decide), (h.2.2 12 (by decide)).1, (h.2.2 12 (by decide)).2⟩

/-! ## Claim C6: jti freshness -/

/-- A decimal digit character read back as its code point. -/
theorem digit_toNat (d : Nat) (h : d < 10) : (Char.ofNat (48 + d)).toNat = 48 + d := by
  interval_cases d <;> decide

/-- A decimal digit character is never the dash separator. -/
theorem digit_ne_dash (d : Nat) (h : d < 10) : Char.ofNat (48 + d) ≠ '-' := by
  interval_cases d <;> decide

/-- The accumulator of `decCharsAux` is a suffix: digit emission prepends to
it. -/
theorem decCharsAux_append (n : Nat) : ∀ (fuel : Nat) (acc : List Char), n < fuel →
    decCharsAux fuel n acc = decCharsAux (n + 1) n [] ++ acc := by
  induction n using Nat.strong_induction_on with
  | _ n ih =>
    intro fuel acc hfuel
    cases fuel with
    | zero => omega
    | succ f =>
      by_cases h10 : n < 10
      · simp only [decCharsAux, if_pos h10]
        rfl
      · have hdiv : n / 10 < n := Nat.div_lt_self (by omega) (by omega)
        simp only [decCharsAux, if_neg h10]
        rw [ih (n / 10) hdiv f (Char.ofNat (48 + n % 10) :: acc) (by omega),
          ih (n / 10) hdiv n (Char.ofNat (48 + n % 10) :: []) (by omega)]
        simp [List.append_assoc]

/-- Decimal evaluation undoes digit emission (with an arbitrary high-order
prefix value `a`). -/
theorem decCharsAux_eval (n : Nat) : ∀ a : Nat,
    List.foldl decVal a (decCharsAux (n + 1) n []) =
      a * 10 ^ (decCharsAux (n + 1) n []).length + n := by
  induction n using Nat.strong_induction_on with
  | _ n ih =>
    intro a
    by_cases h10 : n < 10
    · simp only [decCharsAux, if_pos h10, List.foldl_cons, List.foldl_nil, decVal,
        List.length_cons, List.length_nil]
      rw [Nat.mod_eq_of_lt h10, digit_toNat n h10, pow_one]
      omega
    · have hdiv : n / 10 < n := Nat.div_lt_self (by omega) (by omega)
      have hD : decCharsAux (n + 1) n [] =
          decCharsAux (n / 10 + 1) (n / 10) [] ++ [Char.ofNat (48 + n % 10)] := by
        simp only [decCharsAux, if_neg h10]
        exact decCharsAux_append (n / 10) n [Char.ofNat (48 + n % 10)] (by omega)
      rw [hD, List.foldl_append, ih (n / 10) hdiv a, List.length_append]
      simp only [List.foldl_cons, List.foldl_nil, decVal, List.length_cons, List.length_nil]
      rw [digit_toNat (n % 10) (Nat.mod_lt n (by omega)), pow_succ, ← Nat.mul_assoc]
      omega

/-- Digit emission is injective. -/
theorem decChars_inj (m n : Nat)
    (h : decCharsAux (m + 1) m [] = decCharsAux (n + 1) n []) : m = n := by
  have hm := decCharsAux_eval m 0
  have hn := decCharsAux_eval n 0
  rw [h] at hm
  omega

/-- Digit emission never produces the dash separator. -/
theorem decCharsAux_no_dash : ∀ (fuel n : Nat) (acc : List Char),
    ('-' ∉ acc) → '-' ∉ decCharsAux fuel n acc := by
  intro fuel
  induction fuel with
  | zero => intro n acc hacc; exact hacc
  | succ f ih =>
    intro n acc hacc
    have hc : Char.ofNat (48 + n % 10) ≠ '-' := digit_ne_dash (n % 10) (Nat.mod_lt n (by omega))
    have hacc' : '-' ∉ Char.ofNat (48 + n % 10) :: acc := by
      intro hmem
      rcases List.mem_cons.mp hmem with he | hmem2
      · exact hc he.symm
      · exact hacc hmem2
    simp only [decCharsAux]
    by_cases h10 : n < 10
    · rw [if_pos h10]
      exact hacc'
    · rw [if_neg h10]
      exact ih (n / 10) _ hacc'

/-- The rendered decimal string of a number contains no dash. -/
theorem decStr_no_dash (n : Nat) : '-' ∉ (decStr n).data :=
  decCharsAux_no_dash (n + 1) n [] (by simp)

/-- Splitting at the first dash after a dash-free prefix is unambiguous. -/
theorem splitDash : ∀ (A₁ A₂ B₁ B₂ : List Char), ('-' ∉ A₁) → ('-' ∉ A₂) →
    A₁ ++ '-' :: B₁ = A₂ ++ '-' :: B₂ → A₁ = A₂ ∧ B₁ = B₂ := by
  intro A₁
  induction A₁ with
  | nil =>
    intro A₂ B₁ B₂ h1 h2 heq
    cases A₂ with
    | nil => exact ⟨rfl, (List.cons.inj heq).2⟩
    | cons c A₂' =>
      exfalso
      have hc := (List.cons.inj heq).1
      exact h2 (by rw [← hc]; exact List.mem_cons_self _ _)
  | cons c A₁' ih =>
    intro A₂ B₁ B₂ h1 h2 heq
    cases A₂ with
    | nil =>
      exfalso
      have hc := (List.cons.inj heq).1
      exact h1 (by rw [hc]; exact List.mem_cons_self _ _)
    | cons c' A₂' =>
      obtain ⟨hc, hrest⟩ := List.cons.inj heq
      have h1' : '-' ∉ A₁' := fun hm => h1 (List.mem_cons_of_mem _ hm)
      have h2' : '-' ∉ A₂' := fun hm => h2 (List.mem_cons_of_mem _ hm)
      obtain ⟨hA, hB⟩ := ih A₂' B₁ B₂ h1' h2' hrest
      exact ⟨by rw [hc, hA], hB⟩

/-- For one user id, the jti determines the millisecond timestamp and the
random draw. -/
theorem mkJti_inj (u : String) (t r t' r' : Nat)
    (h : mkJti u t r = mkJti u t' r') : t = t' ∧ r = r' := by
  have hdata : u.data ++ ('-' :: ((decStr t).data ++ '-' :: (decStr r).data)) =
      u.data ++ ('-' :: ((decStr t').data ++ '-' :: (decStr r').data)) := by
    have hd := congrArg String.data h
    simpa [mkJti, String.data_append, List.append_assoc] using hd
  have hmid := List.cons.inj (List.append_cancel_left hdata)
  obtain ⟨hT, hcons⟩ := splitDash (decStr t).data (decStr t').data _ _
    (decStr_no_dash t) (decStr_no_dash t') hmid.2
  exact ⟨decChars_inj t t' hT, decChars_inj r r' hcons⟩

/-- Counterexample to C6 as stated: two distinct `generateRefreshToken` calls
for the same subject id — here two different user objects sharing id `"u"` —
that observe the same `Date.now()` millisecond and the same random draw
produce two different refresh tokens with the SAME jti, so they share a
registry key. -/
theorem c6_counterexample :
    generateRefreshToken env0 (.obj { id := some "u", _id := none, role := "customer" })
        false 5 7 ≠
      generateRefreshToken env0 (.obj { id := some "u", _id := some "x", role := "customer" })
        false 5 7 ∧
    jtiOf (generateRefreshToken env0
        (.obj { id := some "u", _id := none, role := "customer" }) false 5 7) =
      jtiOf (generateRefreshToken env0
        (.obj { id := some "u", _id := some "x", role := "customer" }) false 5 7) ∧
    jtiOf (generateRefreshToken env0
        (.obj { id := some "u", _id := none, role := "customer" }) false 5 7) =
      some "u-5-7" := by
  refine ⟨?_, rfl, ?_⟩ <;> decide

/-- Claim C6 (amended): two `generateRefreshToken` calls for the same user
embed distinct jti values whenever the two calls differ in their
`Date.now()` millisecond or in their random draw; when both coincide the
jti collides (see the counterexample), so distinctness is only
probabilistic. -/
theorem c6_jti_distinct_unless_collision (env env' : Env) (u : JsUser) (a a' : Bool)
    (t r t' r' : Nat) (h : t ≠ t' ∨ r ≠ r') :
    jtiOf (generateRefreshToken env u a t r) ≠ jtiOf (generateRefreshToken env' u a' t' r') := by
  intro heq
  have hj : mkJti (refreshUserId u) t r = mkJti (refreshUserId u) t' r' := by
    simpa [jtiOf, generateRefreshToken] using heq
  obtain ⟨ht, hr⟩ := mkJti_inj (refreshUserId u) t r t' r' hj
  rcases h with h | h
  · exact h ht
  · exact h hr

/-- Witness for C6 (amended): same user, same millisecond, different random
draws — the jtis differ. -/
theorem c6_witness :
    jtiOf (generateRefreshToken env0 (.str "u") false 5 7) ≠
      jtiOf (generateRefreshToken env0 (.str "u") false 5 8) :=
  c6_jti_distinct_unless_collision env0 env0 (.str "u") false false 5 7 5 8
    (Or.inr (by decide))
